import Mathlib

/-!
Verification of the reliability engine of the flask-sre-challenge
repository: the circuit breaker state machine in src/sre/circuit_breaker.py
and the SLO / SLI / error-budget accounting in src/sre/slo_sli.py.

Modelling conventions:
- Python ints are Int (or Nat for counters that provably never go below 0:
  failure_count starts at 0 and is only incremented or reset to 0).
- Python time.time() / datetime values are abstracted to Int. For the
  metric store, timestamps are abstracted to an integer hour index: the
  bucket key f string endpoint_YYYY-mm-dd-HH is modelled as the pair
  (endpoint, hour). The strftime hour component has a fixed 13-character
  width, so two keys coincide exactly when both the endpoint and the hour
  coincide, which the pair encoding captures.
- Python floats carried by the SLI pipeline (latencies, percentages,
  budgets) are modelled as ℚ, the exact value semantics of the arithmetic
  the source performs.
- A fallible computation (a Python expression that can raise IndexError)
  returns an Option.
-/

/-! ## Circuit breaker (src/sre/circuit_breaker.py) -/

/-- The three states of CircuitState in circuit_breaker.py. -/
inductive CircuitState where
  | CLOSED
  | OPEN
  | HALF_OPEN
deriving DecidableEq, Repr

/-- Observable outcome of one CircuitBreaker.call attempt:
the guarded operation ran and returned (success), the guarded operation ran
and raised its own failure which was re-raised (opFailure), or the call was
rejected with CircuitBreakerError without invoking the operation
(rejected). -/
inductive CallResult where
  | success
  | opFailure
  | rejected
deriving DecidableEq, Repr

/-- State of one CircuitBreaker instance (fields set in __init__ and
mutated by call / _on_success / _on_failure). -/
structure CircuitBreaker where
  failure_threshold : Int
  recovery_timeout : Int
  failure_count : Nat
  last_failure_time : Option Int
  state : CircuitState
deriving DecidableEq, Repr

/-- CircuitBreaker.__init__: failure_count = 0, last_failure_time = None,
state = CLOSED. -/
def CircuitBreaker.init (ft rt : Int) : CircuitBreaker :=
  { failure_threshold := ft
    recovery_timeout := rt
    failure_count := 0
    last_failure_time := none
    state := .CLOSED }

/-- CircuitBreaker._should_attempt_reset. -/
def CircuitBreaker.should_attempt_reset (cb : CircuitBreaker) (now : Int) : Bool :=
  match cb.last_failure_time with
  | none => true
  | some t => decide (now - t ≥ cb.recovery_timeout)

/-- CircuitBreaker._on_success: reset failure_count to 0; HALF_OPEN moves
to CLOSED, any other state is kept. -/
def CircuitBreaker.on_success (cb : CircuitBreaker) : CircuitBreaker :=
  { cb with
    failure_count := 0
    state := if cb.state = .HALF_OPEN then .CLOSED else cb.state }

/-- CircuitBreaker._on_failure at time now: increment failure_count, stamp
last_failure_time, and open the circuit when the new count reaches the
threshold. -/
def CircuitBreaker.on_failure (cb : CircuitBreaker) (now : Int) : CircuitBreaker :=
  { cb with
    failure_count := cb.failure_count + 1
    last_failure_time := some now
    state :=
      if ((cb.failure_count + 1 : Nat) : Int) ≥ cb.failure_threshold then .OPEN
      else cb.state }

/-- The decision step at the top of CircuitBreaker.call: none means the
call is rejected with CircuitBreakerError (the operation is never invoked);
some cb means the operation is about to be invoked with the breaker in
state cb (an OPEN breaker whose recovery timeout has elapsed first moves to
HALF_OPEN). -/
def CircuitBreaker.preCall (cb : CircuitBreaker) (now : Int) : Option CircuitBreaker :=
  if cb.state = .OPEN then
    if cb.should_attempt_reset now then some { cb with state := .HALF_OPEN }
    else none
  else some cb

/-- CircuitBreaker.call at time now. opFails tells whether the guarded
operation, if invoked, raises its (expected) exception. Returns the
post-call breaker state together with the observable outcome. -/
def CircuitBreaker.call (cb : CircuitBreaker) (opFails : Bool) (now : Int) :
    CircuitBreaker × CallResult :=
  match cb.preCall now with
  | none => (cb, .rejected)
  | some c => if opFails then (c.on_failure now, .opFailure) else (c.on_success, .success)

/-- Breaker states reachable from a freshly constructed breaker by a
sequence of call attempts. -/
inductive CircuitBreaker.Reachable : CircuitBreaker → Prop where
  | init (ft rt : Int) : Reachable (CircuitBreaker.init ft rt)
  | step (cb : CircuitBreaker) (b : Bool) (t : Int) :
      Reachable cb → Reachable (cb.call b t).1

theorem CircuitBreaker.preCall_none_iff (cb : CircuitBreaker) (now : Int) :
    cb.preCall now = none ↔ cb.state = .OPEN ∧ cb.should_attempt_reset now = false := by
  unfold CircuitBreaker.preCall
  by_cases hs : cb.state = .OPEN <;> cases hr : cb.should_attempt_reset now <;> simp [hs, hr]

theorem CircuitBreaker.preCall_some (cb c : CircuitBreaker) (now : Int)
    (h : cb.preCall now = some c) :
    c.state ≠ .OPEN ∧ c.failure_count = cb.failure_count ∧
      c.last_failure_time = cb.last_failure_time ∧
      c.failure_threshold = cb.failure_threshold ∧
      c.recovery_timeout = cb.recovery_timeout := by
  unfold CircuitBreaker.preCall at h
  by_cases hs : cb.state = .OPEN
  · cases hr : cb.should_attempt_reset now <;> simp [hs, hr] at h
    subst h
    simp
  · simp [hs] at h
    subst h
    exact ⟨hs, rfl, rfl, rfl, rfl⟩

theorem CircuitBreaker.call_rejected (cb : CircuitBreaker) (b : Bool) (now : Int)
    (h : cb.preCall now = none) : cb.call b now = (cb, .rejected) := by
  simp [CircuitBreaker.call, h]

theorem CircuitBreaker.call_invoked_success (cb c : CircuitBreaker) (now : Int)
    (h : cb.preCall now = some c) :
    cb.call false now = (c.on_success, .success) := by
  simp [CircuitBreaker.call, h]

theorem CircuitBreaker.call_invoked_failure (cb c : CircuitBreaker) (now : Int)
    (h : cb.preCall now = some c) :
    cb.call true now = (c.on_failure now, .opFailure) := by
  simp [CircuitBreaker.call, h]

theorem CircuitBreaker.on_failure_failure_count (cb : CircuitBreaker) (now : Int) :
    (cb.on_failure now).failure_count = cb.failure_count + 1 := rfl

theorem CircuitBreaker.on_failure_last_failure_time (cb : CircuitBreaker) (now : Int) :
    (cb.on_failure now).last_failure_time = some now := rfl

theorem CircuitBreaker.on_failure_failure_threshold (cb : CircuitBreaker) (now : Int) :
    (cb.on_failure now).failure_threshold = cb.failure_threshold := rfl

theorem CircuitBreaker.on_failure_recovery_timeout (cb : CircuitBreaker) (now : Int) :
    (cb.on_failure now).recovery_timeout = cb.recovery_timeout := rfl

theorem CircuitBreaker.on_failure_state (cb : CircuitBreaker) (now : Int) :
    (cb.on_failure now).state =
      if ((cb.failure_count + 1 : Nat) : Int) ≥ cb.failure_threshold then .OPEN
      else cb.state := rfl

theorem CircuitBreaker.on_success_failure_count (cb : CircuitBreaker) :
    cb.on_success.failure_count = 0 := rfl

theorem CircuitBreaker.on_success_last_failure_time (cb : CircuitBreaker) :
    cb.on_success.last_failure_time = cb.last_failure_time := rfl

theorem CircuitBreaker.on_success_failure_threshold (cb : CircuitBreaker) :
    cb.on_success.failure_threshold = cb.failure_threshold := rfl

theorem CircuitBreaker.on_success_recovery_timeout (cb : CircuitBreaker) :
    cb.on_success.recovery_timeout = cb.recovery_timeout := rfl

theorem CircuitBreaker.on_success_state (cb : CircuitBreaker) :
    cb.on_success.state = if cb.state = .HALF_OPEN then .CLOSED else cb.state := rfl

theorem CircuitBreaker.call_preserves_config (cb : CircuitBreaker) (b : Bool) (t : Int) :
    (cb.call b t).1.failure_threshold = cb.failure_threshold ∧
      (cb.call b t).1.recovery_timeout = cb.recovery_timeout := by
  rcases hpc : cb.preCall t with _ | c
  · rw [cb.call_rejected b t hpc]
    exact ⟨rfl, rfl⟩
  · obtain ⟨-, -, -, hft, hrt⟩ := cb.preCall_some c t hpc
    cases b
    · rw [cb.call_invoked_success c t hpc]
      exact ⟨hft, hrt⟩
    · rw [cb.call_invoked_failure c t hpc]
      exact ⟨hft, hrt⟩

/-- Invariant of reachable breakers: whenever the state is OPEN, the
failure count has reached the threshold and a last failure time is
recorded. -/
theorem CircuitBreaker.reachable_open_invariant (cb : CircuitBreaker)
    (hr : cb.Reachable) (hs : cb.state = .OPEN) :
    ((cb.failure_count : Nat) : Int) ≥ cb.failure_threshold ∧
      cb.last_failure_time ≠ none := by
  induction hr with
  | init ft rt => simp [CircuitBreaker.init] at hs
  | step cb b t _ ih =>
    rcases hpc : cb.preCall t with _ | c
    · rw [cb.call_rejected b t hpc] at hs ⊢
      exact ih hs
    · obtain ⟨hcs, -, -, -, -⟩ := cb.preCall_some c t hpc
      cases b
      · rw [cb.call_invoked_success c t hpc] at hs ⊢
        rw [CircuitBreaker.on_success_state] at hs
        by_cases hh : c.state = .HALF_OPEN <;> simp [hh] at hs
        exact absurd hs hcs
      · rw [cb.call_invoked_failure c t hpc] at hs ⊢
        rw [CircuitBreaker.on_failure_state] at hs
        refine ⟨?_, by simp [CircuitBreaker.on_failure_last_failure_time]⟩
        rw [CircuitBreaker.on_failure_failure_count, CircuitBreaker.on_failure_failure_threshold]
        by_cases hth : ((c.failure_count + 1 : Nat) : Int) ≥ c.failure_threshold
        · exact hth
        · rw [if_neg hth] at hs
          exact absurd hs hcs

def CircuitBreaker.callsFail (cb : CircuitBreaker) (ts : List Int) : CircuitBreaker :=
  ts.foldl (fun c t => (c.call true t).1) cb

/-- Each call of the sequence of failing call attempts actually invoked the
guarded operation (none was rejected by an already-open breaker). -/
def CircuitBreaker.allInvoked (cb : CircuitBreaker) : List Int → Bool
  | [] => true
  | t :: rest => decide ((cb.call true t).2 ≠ .rejected) && (cb.call true t).1.allInvoked rest

theorem CircuitBreaker.call_fail_invoked (cb : CircuitBreaker) (t : Int)
    (h : (cb.call true t).2 ≠ .rejected) :
    (cb.call true t).1.failure_count = cb.failure_count + 1 ∧
    (cb.call true t).1.last_failure_time = some t ∧
    (cb.call true t).1.failure_threshold = cb.failure_threshold ∧
    (cb.call true t).1.recovery_timeout = cb.recovery_timeout ∧
    (((cb.failure_count + 1 : Nat) : Int) ≥ cb.failure_threshold →
      (cb.call true t).1.state = .OPEN) := by
  rcases hpc : cb.preCall t with _ | c
  · rw [cb.call_rejected true t hpc] at h
    simp at h
  · obtain ⟨-, hfc, -, hft, hrt⟩ := cb.preCall_some c t hpc
    rw [cb.call_invoked_failure c t hpc]
    refine ⟨?_, ?_, ?_, ?_, ?_⟩
    · rw [CircuitBreaker.on_failure_failure_count, hfc]
    · exact CircuitBreaker.on_failure_last_failure_time c t
    · rw [CircuitBreaker.on_failure_failure_threshold, hft]
    · rw [CircuitBreaker.on_failure_recovery_timeout, hrt]
    · intro hge
      rw [CircuitBreaker.on_failure_state, if_pos]
      rw [hfc, hft]
      exact hge

theorem CircuitBreaker.callsFail_spec (ts : List Int) :
    ∀ cb : CircuitBreaker, cb.allInvoked ts = true →
      (cb.callsFail ts).failure_count = cb.failure_count + ts.length ∧
      (cb.callsFail ts).failure_threshold = cb.failure_threshold ∧
      (cb.callsFail ts).recovery_timeout = cb.recovery_timeout ∧
      ∀ tl : Int, ts.getLast? = some tl →
        (cb.callsFail ts).last_failure_time = some tl ∧
        (((cb.failure_count + ts.length : Nat) : Int) ≥ cb.failure_threshold →
          (cb.callsFail ts).state = .OPEN) := by
  induction ts with
  | nil =>
    intro cb _
    refine ⟨rfl, rfl, rfl, ?_⟩
    intro tl htl
    simp at htl
  | cons t rest ih =>
    intro cb hall
    rw [CircuitBreaker.allInvoked, Bool.and_eq_true, decide_eq_true_iff] at hall
    obtain ⟨hstep, hrest⟩ := hall
    obtain ⟨hfc, hlft, hft, hrt, hopen⟩ := cb.call_fail_invoked t hstep
    have hfold : cb.callsFail (t :: rest) = ((cb.call true t).1).callsFail rest := rfl
    obtain ⟨ihc, ihft, ihrt, ihlast⟩ := ih (cb.call true t).1 hrest
    rw [hfold]
    refine ⟨?_, ?_, ?_, ?_⟩
    · rw [ihc, hfc]
      simp [List.length_cons]
      omega
    · rw [ihft, hft]
    · rw [ihrt, hrt]
    · intro tl htl
      cases rest with
      | nil =>
        rw [List.getLast?_singleton] at htl
        have htl2 : t = tl := by simpa using htl
        subst htl2
        constructor
        · simpa [CircuitBreaker.callsFail] using hlft
        · intro hge
          have := hopen (by simpa using hge)
          simpa [CircuitBreaker.callsFail] using this
      | cons r rs =>
        rw [List.getLast?_cons_cons] at htl
        obtain ⟨ihlft, ihopen⟩ := ihlast tl htl
        refine ⟨ihlft, ?_⟩
        intro hge
        apply ihopen
        rw [hfc, hft]
        simp only [List.length_cons] at hge ⊢
        push_cast
        push_cast at hge
        omega

/-- C1: for every reachable CircuitBreaker in state OPEN whose elapsed time
since last_failure_time is at least recovery_timeout, the next call attempt
moves the state to HALF_OPEN and invokes the guarded operation exactly once
(preCall returns the HALF_OPEN breaker rather than a rejection); a
succeeding trial ends CLOSED with failure_count 0, a failing trial ends
OPEN with last_failure_time updated to the failure time. -/
theorem circuit_breaker_recovery_trial (cb : CircuitBreaker) (t now : Int)
    (hr : cb.Reachable) (hs : cb.state = .OPEN)
    (hl : cb.last_failure_time = some t) (he : now - t ≥ cb.recovery_timeout) :
    cb.preCall now = some { cb with state := .HALF_OPEN } ∧
    (cb.call false now).1.state = .CLOSED ∧
    (cb.call false now).1.failure_count = 0 ∧
    (cb.call false now).2 = .success ∧
    (cb.call true now).1.state = .OPEN ∧
    (cb.call true now).1.last_failure_time = some now ∧
    (cb.call true now).2 = .opFailure := by
  have hreset : cb.should_attempt_reset now = true := by
    unfold CircuitBreaker.should_attempt_reset
    rw [hl]
    simpa using he
  have hpc : cb.preCall now = some { cb with state := .HALF_OPEN } := by
    unfold CircuitBreaker.preCall
    rw [if_pos hs, if_pos hreset]
  have hsucc := cb.call_invoked_success _ now hpc
  have hfail := cb.call_invoked_failure _ now hpc
  have hinv := cb.reachable_open_invariant hr hs
  have hge : (((cb.failure_count + 1 : Nat) : Int)) ≥ cb.failure_threshold := by
    have h1 := hinv.1
    push_cast
    push_cast at h1
    omega
  refine ⟨hpc, ?_, ?_, ?_, ?_, ?_, ?_⟩
  · rw [hsucc]
    simp [CircuitBreaker.on_success_state]
  · rw [hsucc, CircuitBreaker.on_success_failure_count]
  · rw [hsucc]
  · rw [hfail]
    simp only [CircuitBreaker.on_failure_state]
    rw [if_pos]
    exact hge
  · rw [hfail, CircuitBreaker.on_failure_last_failure_time]
  · rw [hfail]

/-- Concrete reachable breaker for the C1 witness: threshold 1, timeout 10,
one failing call at time 0 opens it. -/
def cbWitnessC1 : CircuitBreaker := ((CircuitBreaker.init 1 10).call true 0).1

theorem circuit_breaker_recovery_trial_witness :
    cbWitnessC1.preCall 10 = some { cbWitnessC1 with state := .HALF_OPEN } ∧
    (cbWitnessC1.call false 10).1.state = .CLOSED ∧
    (cbWitnessC1.call false 10).1.failure_count = 0 ∧
    (cbWitnessC1.call false 10).2 = .success ∧
    (cbWitnessC1.call true 10).1.state = .OPEN ∧
    (cbWitnessC1.call true 10).1.last_failure_time = some 10 ∧
    (cbWitnessC1.call true 10).2 = .opFailure :=
  circuit_breaker_recovery_trial cbWitnessC1 0 10
    (CircuitBreaker.Reachable.step _ true 0 (CircuitBreaker.Reachable.init 1 10))
    (by decide) (by decide) (by decide)

/-- C2: starting from any breaker state, a sequence of at least
failure_threshold consecutive failed guarded calls (each actually invoked,
with no intervening success) leaves the breaker OPEN, and a subsequent call
attempted before recovery_timeout has elapsed since the last failure is
rejected without invoking the guarded operation and without changing the
breaker. -/
theorem circuit_breaker_opens_after_failures (cb : CircuitBreaker) (ts : List Int)
    (tl now : Int) (b : Bool)
    (hall : cb.allInvoked ts = true)
    (hN : (ts.length : Int) ≥ cb.failure_threshold)
    (hlast : ts.getLast? = some tl)
    (hnow : now - tl < cb.recovery_timeout) :
    (cb.callsFail ts).state = .OPEN ∧
    (cb.callsFail ts).preCall now = none ∧
    (cb.callsFail ts).call b now = (cb.callsFail ts, .rejected) := by
  obtain ⟨hc, hft, hrt, hlspec⟩ := CircuitBreaker.callsFail_spec ts cb hall
  obtain ⟨hlft, hstate⟩ := hlspec tl hlast
  have hopen : (cb.callsFail ts).state = .OPEN := by
    apply hstate
    push_cast
    omega
  have hreset : (cb.callsFail ts).should_attempt_reset now = false := by
    unfold CircuitBreaker.should_attempt_reset
    rw [hlft, hrt]
    simpa using hnow
  have hpc : (cb.callsFail ts).preCall now = none := by
    unfold CircuitBreaker.preCall
    rw [if_pos hopen, if_neg]
    simp [hreset]
  exact ⟨hopen, hpc, (cb.callsFail ts).call_rejected b now hpc⟩

theorem circuit_breaker_opens_after_failures_witness :
    ((CircuitBreaker.init 2 10).callsFail [0, 1]).state = .OPEN ∧
    ((CircuitBreaker.init 2 10).callsFail [0, 1]).preCall 5 = none ∧
    ((CircuitBreaker.init 2 10).callsFail [0, 1]).call false 5 =
      ((CircuitBreaker.init 2 10).callsFail [0, 1], .rejected) :=
  circuit_breaker_opens_after_failures (CircuitBreaker.init 2 10) [0, 1] 1 5 false
    (by decide) (by decide) (by decide) (by decide)

/-- C3: a call attempted while the breaker is OPEN and the recovery timeout
has not yet elapsed is rejected with the distinct circuit-open error kind,
the guarded operation is never invoked (preCall is none), and the breaker
record (state, failure_count, last_failure_time) is returned unchanged. -/
theorem circuit_breaker_open_rejects_unchanged (cb : CircuitBreaker) (t now : Int) (b : Bool)
    (hs : cb.state = .OPEN) (hl : cb.last_failure_time = some t)
    (hlt : now - t < cb.recovery_timeout) :
    cb.preCall now = none ∧
    cb.call b now = (cb, .rejected) ∧
    CallResult.rejected ≠ .success ∧
    CallResult.rejected ≠ .opFailure := by
  have hreset : cb.should_attempt_reset now = false := by
    unfold CircuitBreaker.should_attempt_reset
    rw [hl]
    simpa using hlt
  have hpc : cb.preCall now = none := by
    unfold CircuitBreaker.preCall
    rw [if_pos hs, if_neg]
    simp [hreset]
  exact ⟨hpc, cb.call_rejected b now hpc, by decide, by decide⟩

theorem circuit_breaker_open_rejects_unchanged_witness :
    cbWitnessC1.preCall 3 = none ∧
    cbWitnessC1.call true 3 = (cbWitnessC1, .rejected) ∧
    CallResult.rejected ≠ .success ∧
    CallResult.rejected ≠ .opFailure :=
  circuit_breaker_open_rejects_unchanged cbWitnessC1 0 3 true
    (by decide) (by decide) (by decide)

/-! ## SLI calculator (src/sre/slo_sli.py, SLICalculator) -/

/-- One value of metrics_store: the per-(endpoint, hour) counters created
lazily by record_request. -/
structure MetricBucket where
  total_requests : Nat
  successful_requests : Nat
  response_times : List ℚ
  errors : Nat
deriving DecidableEq, Repr

def MetricBucket.empty : MetricBucket :=
  { total_requests := 0, successful_requests := 0, response_times := [], errors := 0 }

/-- metrics_store, a dict keyed by the pair (endpoint, hour) that the
string key endpoint_YYYY-mm-dd-HH encodes. -/
def MetricsStore : Type := List ((String × Int) × MetricBucket)

def MetricsStore.empty : MetricsStore := ([] : List ((String × Int) × MetricBucket))

def findBucket : MetricsStore → String × Int → Option MetricBucket
  | [], _ => none
  | (k', v') :: rest, k => if k' = k then some v' else findBucket rest k

def setBucket : MetricsStore → String × Int → MetricBucket → MetricsStore
  | [], k, v => [(k, v)]
  | (k', v') :: rest, k, v =>
      if k' = k then (k, v) :: rest else (k', v') :: setBucket rest k v

/-- The per-bucket effect of record_request: increment total_requests,
count the request as successful when 200 <= status_code < 400 and as an
error otherwise, append the response time. -/
def MetricBucket.record (m : MetricBucket) (status_code : Int) (response_time : ℚ) :
    MetricBucket :=
  { total_requests := m.total_requests + 1
    successful_requests :=
      if 200 ≤ status_code ∧ status_code < 400 then m.successful_requests + 1
      else m.successful_requests
    response_times := m.response_times ++ [response_time]
    errors :=
      if 200 ≤ status_code ∧ status_code < 400 then m.errors
      else m.errors + 1 }

/-- SLICalculator.record_request: create the (endpoint, hour) bucket if
absent, then update it. -/
def record_request (store : MetricsStore) (endpoint : String) (status_code : Int)
    (response_time : ℚ) (hour : Int) : MetricsStore :=
  setBucket store (endpoint, hour)
    (((findBucket store (endpoint, hour)).getD MetricBucket.empty).record status_code
      response_time)

/-- The hours visited by the while current_time <= end_time loop of the SLI
calculators, one step per hour, both ends inclusive. -/
def hoursIn (start_time end_time : Int) : List Int :=
  (List.range (end_time - start_time + 1).toNat).map (fun i => start_time + (i : Int))

/-- The buckets the SLI calculators read: for each hour of the window, the
bucket keyed by the "all" scope, skipped when absent. -/
def allBuckets (store : MetricsStore) (start_time end_time : Int) : List MetricBucket :=
  (hoursIn start_time end_time).filterMap (fun h => findBucket store ("all", h))

/-- SLICalculator.calculate_availability_sli. -/
def calculate_availability_sli (store : MetricsStore) (start_time end_time : Int) : ℚ :=
  let bs := allBuckets store start_time end_time
  let total : Nat := (bs.map (·.total_requests)).sum
  let succ : Nat := (bs.map (·.successful_requests)).sum
  if total = 0 then 100 else ((succ : ℚ) / (total : ℚ)) * 100

/-- SLICalculator.calculate_error_rate_sli. -/
def calculate_error_rate_sli (store : MetricsStore) (start_time end_time : Int) : ℚ :=
  let bs := allBuckets store start_time end_time
  let total : Nat := (bs.map (·.total_requests)).sum
  let errs : Nat := (bs.map (·.errors)).sum
  if total = 0 then 100 else (((total : ℚ) - (errs : ℚ)) / (total : ℚ)) * 100

/-- Python int() applied to a rational: truncation toward zero. -/
def pyTrunc (q : ℚ) : Int := if q < 0 then ⌈q⌉ else ⌊q⌋

/-- Python list indexing: negative indices address from the end, anything
out of range raises IndexError (none). -/
def pyGet (l : List ℚ) (i : Int) : Option ℚ :=
  if 0 ≤ i then l.get? i.toNat
  else if -(l.length : Int) ≤ i then l.get? (i + l.length).toNat
  else none

def insertSorted (x : ℚ) : List ℚ → List ℚ
  | [] => [x]
  | y :: ys => if x ≤ y then x :: y :: ys else y :: insertSorted x ys

/-- Python sorted on a list of floats. -/
def pySorted (l : List ℚ) : List ℚ := l.foldr insertSorted []

/-- SLICalculator.calculate_latency_sli. The percentile parameter is used
only to index the sorted samples into a dead local variable; that indexing
can raise IndexError, so the result is an Option. The returned value is the
percentage of samples under the 0.2 second threshold. -/
def calculate_latency_sli (store : MetricsStore) (start_time end_time : Int)
    (percentile : ℚ) : Option ℚ :=
  let all_response_times := ((allBuckets store start_time end_time).map
    (·.response_times)).flatten
  if all_response_times = [] then some 100
  else
    let sorted_times := pySorted all_response_times
    let index := pyTrunc (percentile / 100 * (all_response_times.length : ℚ))
    (pyGet sorted_times (min index ((all_response_times.length : Int) - 1))).map
      (fun _ =>
        (((all_response_times.filter (fun t => t < 1/5)).length : ℚ) /
          (all_response_times.length : ℚ)) * 100)

/-- SLICalculator.calculate_freshness_sli: a stub constant. -/
def calculate_freshness_sli (_store : MetricsStore) (_start_time _end_time : Int) : ℚ :=
  995 / 10

/-! ## Error budgets, alerting and dashboard (src/sre/slo_sli.py) -/

/-- SLODefinition. -/
structure SLODefinition where
  name : String
  sli_name : String
  target : ℚ
  window_days : Nat
deriving DecidableEq, Repr

def sloAvailability : SLODefinition :=
  { name := "Availability", sli_name := "availability_sli", target := 999 / 10
    window_days := 30 }

def sloLatencyP95 : SLODefinition :=
  { name := "Latency P95", sli_name := "latency_p95_sli", target := 95, window_days := 30 }

def sloErrorRate : SLODefinition :=
  { name := "Error Rate", sli_name := "error_rate_sli", target := 99, window_days := 30 }

def sloFreshness : SLODefinition :=
  { name := "Data Freshness", sli_name := "freshness_sli", target := 995 / 10
    window_days := 7 }

/-- ErrorBudget: the owning SLO, the consumed budget, and
budget_total = 100 - target fixed at construction. -/
structure ErrorBudget where
  slo : SLODefinition
  budget_consumed : ℚ
  budget_total : ℚ
deriving DecidableEq, Repr

def ErrorBudget.init (slo : SLODefinition) : ErrorBudget :=
  { slo := slo, budget_consumed := 0, budget_total := 100 - slo.target }

/-- ErrorBudget.consume_budget: returns the updated budget together with
the consumed delta that the method returns. -/
def ErrorBudget.consume_budget (eb : ErrorBudget) (sli_value : ℚ) : ErrorBudget × ℚ :=
  if sli_value < eb.slo.target then
    ({ eb with budget_consumed := eb.budget_consumed + (eb.slo.target - sli_value) },
      eb.slo.target - sli_value)
  else (eb, 0)

/-- ErrorBudget.get_budget_remaining. -/
def ErrorBudget.get_budget_remaining (eb : ErrorBudget) : ℚ :=
  max 0 (eb.budget_total - eb.budget_consumed)

/-- ErrorBudget.is_budget_critical with explicit threshold (the source
default is 0.5). -/
def ErrorBudget.is_budget_critical (eb : ErrorBudget) (threshold : ℚ) : Bool :=
  decide (eb.get_budget_remaining < eb.budget_total * threshold)

/-- The error_budgets dict of SREAlerting, one budget per SLO in
SLO_DEFINITIONS insertion order. -/
structure Budgets where
  availability : ErrorBudget
  latency_p95 : ErrorBudget
  error_rate : ErrorBudget
  freshness : ErrorBudget
deriving DecidableEq, Repr

def Budgets.init : Budgets :=
  { availability := ErrorBudget.init sloAvailability
    latency_p95 := ErrorBudget.init sloLatencyP95
    error_rate := ErrorBudget.init sloErrorRate
    freshness := ErrorBudget.init sloFreshness }

/-- One entry of the results dict built by SREAlerting.evaluate_slos. -/
structure SLOResult where
  slo_target : ℚ
  sli_value : ℚ
  status : String
  budget_consumed : ℚ
  budget_remaining : ℚ
  is_critical : Bool
deriving DecidableEq, Repr

/-- The per-SLO body of the evaluate_slos loop: consume the budget with the
computed SLI value and record the result fields from the updated budget. -/
def evalOneSLO (slo : SLODefinition) (eb : ErrorBudget) (sli_value : ℚ) :
    SLOResult × ErrorBudget :=
  let consumed := eb.consume_budget sli_value
  ({ slo_target := slo.target
     sli_value := sli_value
     status := if sli_value ≥ slo.target then "PASS" else "FAIL"
     budget_consumed := consumed.2
     budget_remaining := consumed.1.get_budget_remaining
     is_critical := consumed.1.is_budget_critical (1 / 2) }, consumed.1)

/-- SREAlerting.evaluate_slos over the window, threading the mutable error
budgets; none when the latency SLI raises. The four SLOs are visited in the
dict insertion order of SLO_DEFINITIONS. -/
def evaluate_slos (store : MetricsStore) (start_time end_time : Int) (B : Budgets) :
    Option (List (String × SLOResult) × Budgets) :=
  let ra := evalOneSLO sloAvailability B.availability
    (calculate_availability_sli store start_time end_time)
  (calculate_latency_sli store start_time end_time 95).map (fun lat =>
    let rl := evalOneSLO sloLatencyP95 B.latency_p95 lat
    let re := evalOneSLO sloErrorRate B.error_rate
      (calculate_error_rate_sli store start_time end_time)
    let rf := evalOneSLO sloFreshness B.freshness
      (calculate_freshness_sli store start_time end_time)
    ([("availability", ra.1), ("latency_p95", rl.1), ("error_rate", re.1),
      ("freshness", rf.1)],
     { availability := ra.2, latency_p95 := rl.2, error_rate := re.2,
       freshness := rf.2 }))

/-- The two alert kinds emitted by SREAlerting.should_alert, keeping the
SLO name of the formatted message. -/
inductive Alert where
  | violation (name : String)
  | budgetCritical (name : String)
deriving DecidableEq, Repr

/-- SREAlerting.should_alert: one violation alert per FAILing SLO and one
budget-critical alert per critical budget, in results order. -/
def should_alert (results : List (String × SLOResult)) : List Alert :=
  results.flatMap (fun r =>
    (if r.2.status = "FAIL" then [Alert.violation r.1] else []) ++
      (if r.2.is_critical then [Alert.budgetCritical r.1] else []))

/-- The payload of SREDashboard.get_dashboard_data that the claims are
about. -/
structure DashboardData where
  slos : List (String × SLOResult)
  alerts : List Alert
  overall_status : String
deriving DecidableEq, Repr

/-- SREDashboard.get_dashboard_data at an hour index now: evaluate all SLOs
over the 30-day window [now - 720, now] and derive the overall status from
the alerts list alone. -/
def get_dashboard_data (now : Int) (store : MetricsStore) (B : Budgets) :
    Option DashboardData :=
  (evaluate_slos store (now - 720) now B).map (fun rb =>
    let alerts := should_alert rb.1
    { slos := rb.1
      alerts := alerts
      overall_status := if alerts.isEmpty then "HEALTHY" else "DEGRADED" })

/-! ## Bucket update lemmas and the recording claims -/

theorem findBucket_setBucket_self (store : MetricsStore) (k : String × Int)
    (v : MetricBucket) : findBucket (setBucket store k v) k = some v := by
  induction store with
  | nil => simp [setBucket, findBucket]
  | cons hd tl ih =>
    obtain ⟨k', v'⟩ := hd
    by_cases h : k' = k
    · simp [setBucket, findBucket, h]
    · simp [setBucket, findBucket, h, ih]

theorem findBucket_setBucket_ne (store : MetricsStore) (k k' : String × Int)
    (v : MetricBucket) (h : k' ≠ k) :
    findBucket (setBucket store k v) k' = findBucket store k' := by
  induction store with
  | nil =>
    simp [setBucket, findBucket]
    exact fun hh => h hh.symm
  | cons hd tl ih =>
    obtain ⟨k'', v''⟩ := hd
    by_cases h2 : k'' = k
    · subst h2
      have hne : ¬ k'' = k' := fun hh => h hh.symm
      simp [setBucket, findBucket, hne]
    · simp [setBucket, findBucket, h2, ih]

/-- C5 (amended): record_request updates exactly the one bucket keyed by
(endpoint, hour-of(timestamp)): total_requests is incremented, the latency
sample is appended, and the request counts as a success when
200 <= status_code < 400 and as an error otherwise; every other bucket,
including the aggregate ("all", hour) bucket when the endpoint is not the
literal string "all", is left untouched. -/
theorem record_request_updates_one_bucket (store : MetricsStore) (endpoint : String)
    (status_code : Int) (response_time : ℚ) (hour : Int) :
    findBucket (record_request store endpoint status_code response_time hour)
        (endpoint, hour) =
      some (((findBucket store (endpoint, hour)).getD MetricBucket.empty).record
        status_code response_time) ∧
    ∀ k : String × Int, k ≠ (endpoint, hour) →
      findBucket (record_request store endpoint status_code response_time hour) k =
        findBucket store k := by
  constructor
  · exact findBucket_setBucket_self store (endpoint, hour) _
  · intro k hk
    exact findBucket_setBucket_ne store (endpoint, hour) k _ hk

theorem record_request_updates_one_bucket_witness :
    findBucket (record_request MetricsStore.empty "health" 200 (1 / 20) 0)
        ("health", 0) =
      some (((findBucket MetricsStore.empty ("health", 0)).getD
        MetricBucket.empty).record 200 (1 / 20)) ∧
    findBucket (record_request MetricsStore.empty "health" 200 (1 / 20) 0)
        ("all", 0) = findBucket MetricsStore.empty ("all", 0) :=
  ⟨(record_request_updates_one_bucket MetricsStore.empty "health" 200 (1 / 20) 0).1,
    (record_request_updates_one_bucket MetricsStore.empty "health" 200 (1 / 20) 0).2
      ("all", 0) (by decide)⟩

/-- C5 counterexample: recording a request for the ordinary endpoint
"health" into an empty store creates only the ("health", hour) bucket; no
aggregate ("all", hour) bucket is written, against the claim that every
record updates two buckets. -/
theorem record_request_no_all_bucket_counterexample :
    findBucket (record_request MetricsStore.empty "health" 200 (1 / 20) 0)
        ("all", 0) = none ∧
    findBucket (record_request MetricsStore.empty "health" 200 (1 / 20) 0)
        ("health", 0) =
      some { total_requests := 1, successful_requests := 1
             response_times := [1 / 20], errors := 0 } := by
  constructor <;> rfl

/-- The C6 scenario store: 10 requests recorded in hour 0 under the
aggregate "all" scope that the SLI calculators read, 9 with status 200 and
1 with status 500, all with latency 0.05 seconds (50 ms against the
calculator's 0.2 second threshold). -/
def storeScenario : MetricsStore :=
  (List.replicate 9 (200 : Int) ++ [500]).foldl
    (fun s c => record_request s "all" c (1 / 20) 0) MetricsStore.empty

/-- The value the latency SLI always reports when it reports at all: the
percentage of recorded samples below the fixed 0.2 second threshold,
independent of the requested percentile. -/
def latency_threshold_compliance (store : MetricsStore) (start_time end_time : Int) : ℚ :=
  let ts := ((allBuckets store start_time end_time).map (·.response_times)).flatten
  if ts = [] then 100
  else ((ts.filter (fun t => t < 1/5)).length : ℚ) / (ts.length : ℚ) * 100

theorem insertSorted_length (x : ℚ) (l : List ℚ) :
    (insertSorted x l).length = l.length + 1 := by
  induction l with
  | nil => rfl
  | cons y ys ih => by_cases h : x ≤ y <;> simp [insertSorted, h, ih]

theorem pySorted_length (l : List ℚ) : (pySorted l).length = l.length := by
  induction l with
  | nil => rfl
  | cons x xs ih => simp [pySorted, insertSorted_length] at ih ⊢; omega

theorem pyGet_isSome (l : List ℚ) (i : Int) (h1 : -(l.length : Int) ≤ i)
    (h2 : i < (l.length : Int)) : (pyGet l i).isSome = true := by
  unfold pyGet
  by_cases h0 : 0 ≤ i
  · rw [if_pos h0]
    have hlt : i.toNat < l.length := by omega
    rw [List.get?_eq_get hlt]
    rfl
  · rw [if_neg h0, if_pos h1]
    have hlt : (i + (l.length : Int)).toNat < l.length := by omega
    rw [List.get?_eq_get hlt]
    rfl

/-- The latency SLI equals the fixed threshold-compliance percentage for
every percentile at least -100, a range on which the dead percentile
indexing never raises IndexError (Python int() truncates toward zero, so
the index is at least -n there). -/
theorem calculate_latency_sli_eq (store : MetricsStore) (s e : Int) (p : ℚ)
    (hp : -100 ≤ p) :
    calculate_latency_sli store s e p = some (latency_threshold_compliance store s e) := by
  simp only [calculate_latency_sli, latency_threshold_compliance]
  by_cases h : ((allBuckets store s e).map (·.response_times)).flatten = []
  · simp [h]
  · rw [if_neg h, if_neg h]
    set ts := ((allBuckets store s e).map (·.response_times)).flatten with hts
    have hn : 0 < ts.length := List.length_pos.mpr h
    have hq_lb : (-(ts.length : Int) : ℚ) ≤ p / 100 * (ts.length : ℚ) := by
      have h100 : (-1 : ℚ) ≤ p / 100 := by linarith
      have := mul_le_mul_of_nonneg_right h100
        (show (0 : ℚ) ≤ (ts.length : ℚ) by positivity)
      push_cast
      linarith
    have hidx_lb : -(ts.length : Int) ≤ pyTrunc (p / 100 * (ts.length : ℚ)) := by
      unfold pyTrunc
      by_cases hq : p / 100 * (ts.length : ℚ) < 0
      · rw [if_pos hq]
        have hc := Int.ceil_le_ceil hq_lb
        simpa [Int.ceil_neg] using hc
      · rw [if_neg hq]
        have h0 : (0 : Int) ≤ ⌊p / 100 * (ts.length : ℚ)⌋ :=
          Int.floor_nonneg.mpr (le_of_not_lt hq)
        omega
    have hmin_lb : -(ts.length : Int) ≤
        min (pyTrunc (p / 100 * (ts.length : ℚ))) ((ts.length : Int) - 1) := by
      refine le_min hidx_lb ?_
      omega
    have hmin_ub : min (pyTrunc (p / 100 * (ts.length : ℚ))) ((ts.length : Int) - 1) <
        (ts.length : Int) := by
      have := min_le_right (pyTrunc (p / 100 * (ts.length : ℚ))) ((ts.length : Int) - 1)
      omega
    have hsome := pyGet_isSome (pySorted ts)
      (min (pyTrunc (p / 100 * (ts.length : ℚ))) ((ts.length : Int) - 1))
      (by rw [pySorted_length]; exact_mod_cast hmin_lb)
      (by rw [pySorted_length]; exact_mod_cast hmin_ub)
    obtain ⟨v, hv⟩ := Option.isSome_iff_exists.mp hsome
    rw [hv]
    rfl

/-- C6: after the 10-request scenario, evaluating the SLIs over that
one-hour window yields availability 90.0, error rate 90.0 and latency
100.0 (every sample is below the 200 ms threshold). -/
theorem sli_end_to_end_scenario :
    calculate_availability_sli storeScenario 0 0 = 90 ∧
    calculate_error_rate_sli storeScenario 0 0 = 90 ∧
    calculate_latency_sli storeScenario 0 0 95 = some 100 := by
  have hb : allBuckets storeScenario 0 0 =
      [{ total_requests := 10, successful_requests := 9
         response_times := List.replicate 10 (1 / 20), errors := 1 }] := rfl
  refine ⟨?_, ?_, ?_⟩
  · simp [calculate_availability_sli, hb]
    norm_num
  · simp [calculate_error_rate_sli, hb]
    norm_num
  · rw [calculate_latency_sli_eq storeScenario 0 0 95 (by norm_num)]
    simp [latency_threshold_compliance, hb]
    norm_num [List.replicate, List.filter]

/-- C7: over a window whose "all"-scope buckets sum to zero total requests,
the availability SLI and the error-rate SLI both return exactly 100, and
the latency SLI returns exactly 100 (for any percentile) when the window
holds no latency samples. -/
theorem empty_window_slis_are_100 (store : MetricsStore) (s e : Int) (p : ℚ) :
    (((allBuckets store s e).map (·.total_requests)).sum = 0 →
      calculate_availability_sli store s e = 100 ∧
      calculate_error_rate_sli store s e = 100) ∧
    (((allBuckets store s e).map (·.response_times)).flatten = [] →
      calculate_latency_sli store s e p = some 100) := by
  refine ⟨fun htot => ⟨?_, ?_⟩, fun hlat => ?_⟩
  · simp [calculate_availability_sli, htot]
  · simp [calculate_error_rate_sli, htot]
  · simp [calculate_latency_sli, hlat]

theorem empty_window_slis_are_100_witness :
    calculate_availability_sli MetricsStore.empty 0 5 = 100 ∧
    calculate_error_rate_sli MetricsStore.empty 0 5 = 100 ∧
    calculate_latency_sli MetricsStore.empty 0 5 95 = some 100 :=
  ⟨((empty_window_slis_are_100 MetricsStore.empty 0 5 95).1 (by decide)).1,
   ((empty_window_slis_are_100 MetricsStore.empty 0 5 95).1 (by decide)).2,
   (empty_window_slis_are_100 MetricsStore.empty 0 5 95).2 (by decide)⟩

/-- A store holding a single "all"-scope sample, used to exercise the
percentile parameter of the latency SLI. -/
def latencyStoreOne : MetricsStore := record_request MetricsStore.empty "all" 200 (1 / 20) 0

/-- C9 counterexample: with one recorded sample, the latency SLI returns
the threshold percentage at percentile 95 but raises IndexError (none) at
percentile -200, because the dead percentile indexing computes the Python
index -2 into a one-element list. The result is therefore not the same for
every pair of percentile values. -/
theorem latency_percentile_counterexample :
    calculate_latency_sli latencyStoreOne 0 0 95 = some 100 ∧
    calculate_latency_sli latencyStoreOne 0 0 (-200) = none := by
  have hb : ((allBuckets latencyStoreOne 0 0).map (·.response_times)).flatten =
      [1 / 20] := rfl
  constructor
  · rw [calculate_latency_sli_eq latencyStoreOne 0 0 95 (by norm_num)]
    simp only [latency_threshold_compliance, hb]
    rw [if_neg (by simp)]
    norm_num [List.filter]
  · simp only [calculate_latency_sli, hb]
    rw [if_neg (by simp)]
    have h1 : (-200 : ℚ) / 100 * (([1 / 20] : List ℚ).length : ℚ) = -2 := by
      norm_num
    rw [h1]
    have h2 : pyTrunc (-2) = -2 := by
      unfold pyTrunc
      rw [if_pos (by norm_num)]
      rw [show ((-2 : ℚ)) = (((-2 : ℤ) : ℚ)) by norm_num, Int.ceil_intCast]
    rw [h2]
    have h3 : min (-2 : Int) ((([1 / 20] : List ℚ).length : Int) - 1) = -2 := by
      simp
    rw [h3]
    have h4 : pyGet (pySorted [1 / 20]) (-2) = none := by
      have hlen : (pySorted [1 / 20] : List ℚ).length = 1 := by
        rw [pySorted_length]
        rfl
      unfold pyGet
      rw [if_neg (by norm_num), if_neg (by rw [hlen]; norm_num)]
    rw [h4]
    rfl

/-- C9 (amended): for every metrics state, window, and pair of percentile
values at least -100, the latency SLI returns the same value: the
percentage of recorded samples below the fixed 0.2 second threshold. The
sameness does not extend to all percentile pairs, because a sufficiently
negative percentile can push the dead indexing out of range: percentile
-200 with a single sample raises IndexError, as the counterexample
shows. -/
theorem latency_sli_ignores_percentile (store : MetricsStore) (s e : Int) (p1 p2 : ℚ)
    (hp1 : -100 ≤ p1) (hp2 : -100 ≤ p2) :
    calculate_latency_sli store s e p1 = calculate_latency_sli store s e p2 ∧
    calculate_latency_sli store s e p1 = some (latency_threshold_compliance store s e) := by
  rw [calculate_latency_sli_eq store s e p1 hp1, calculate_latency_sli_eq store s e p2 hp2]
  exact ⟨rfl, rfl⟩

theorem latency_sli_ignores_percentile_witness :
    calculate_latency_sli latencyStoreOne 0 0 95 = calculate_latency_sli latencyStoreOne 0 0 50 ∧
    calculate_latency_sli latencyStoreOne 0 0 95 =
      some (latency_threshold_compliance latencyStoreOne 0 0) :=
  latency_sli_ignores_percentile latencyStoreOne 0 0 95 50 (by norm_num) (by norm_num)

/-! ## Non-interference of ordinary endpoints with the SLIs -/

/-- One call to record_request, as data. -/
structure RecordEvent where
  endpoint : String
  status_code : Int
  response_time : ℚ
  hour : Int
deriving DecidableEq, Repr

/-- A recording history applied to a store, one record_request per event. -/
def recordAll (store : MetricsStore) (evs : List RecordEvent) : MetricsStore :=
  evs.foldl
    (fun s ev => record_request s ev.endpoint ev.status_code ev.response_time ev.hour) store

/-- Two stores agree on every bucket of the "all" scope, the only buckets
the SLI calculators read. -/
def StoreAgree (s1 s2 : MetricsStore) : Prop :=
  ∀ h : Int, findBucket s1 ("all", h) = findBucket s2 ("all", h)

theorem storeAgree_record (s1 s2 : MetricsStore) (ep : String) (c : Int) (rt : ℚ)
    (hr : Int) (hag : StoreAgree s1 s2) :
    StoreAgree (record_request s1 ep c rt hr) (record_request s2 ep c rt hr) := by
  intro hh
  unfold record_request
  by_cases hk : (("all", hh) : String × Int) = (ep, hr)
  · rw [hk, findBucket_setBucket_self, findBucket_setBucket_self]
    have : findBucket s1 (ep, hr) = findBucket s2 (ep, hr) := by
      rw [← hk]
      exact hag hh
    rw [this]
  · rw [findBucket_setBucket_ne _ _ _ _ hk, findBucket_setBucket_ne _ _ _ _ hk]
    exact hag hh

theorem storeAgree_record_other (s : MetricsStore) (ep : String) (c : Int) (rt : ℚ)
    (hr : Int) (hep : ep ≠ "all") :
    StoreAgree (record_request s ep c rt hr) s := by
  intro hh
  unfold record_request
  apply findBucket_setBucket_ne
  intro hk
  exact hep (congrArg Prod.fst hk).symm

theorem recordAll_agree_filter (evs : List RecordEvent) :
    ∀ s1 s2 : MetricsStore, StoreAgree s1 s2 →
      StoreAgree (recordAll s1 evs)
        (recordAll s2 (evs.filter (fun ev => ev.endpoint == "all"))) := by
  induction evs with
  | nil => exact fun s1 s2 hag => hag
  | cons ev evs ih =>
    intro s1 s2 hag
    by_cases hep : ev.endpoint = "all"
    · have hf : (ev :: evs).filter (fun ev => ev.endpoint == "all") =
          ev :: evs.filter (fun ev => ev.endpoint == "all") := by
        simp [List.filter_cons, hep]
      rw [hf]
      exact ih _ _ (storeAgree_record s1 s2 _ _ _ _ hag)
    · have hf : (ev :: evs).filter (fun ev => ev.endpoint == "all") =
          evs.filter (fun ev => ev.endpoint == "all") := by
        simp [List.filter_cons, hep]
      rw [hf]
      apply ih
      intro hh
      rw [storeAgree_record_other s1 _ _ _ _ hep hh]
      exact hag hh

theorem allBuckets_congr (s1 s2 : MetricsStore) (hag : StoreAgree s1 s2) (s e : Int) :
    allBuckets s1 s e = allBuckets s2 s e := by
  unfold allBuckets
  induction hoursIn s e with
  | nil => rfl
  | cons a l ih => simp only [List.filterMap_cons, hag a, ih]

/-- C10: every SLI reads only the "all"-scope buckets, so any two
recording histories from an empty store that agree on the subsequence of
calls made with endpoint "all" produce identical availability, error-rate
and latency SLI values over every window and percentile: requests recorded
under ordinary endpoint names never influence any SLI. -/
theorem slis_ignore_other_endpoints (evs1 evs2 : List RecordEvent)
    (hfilter : evs1.filter (fun ev => ev.endpoint == "all") =
      evs2.filter (fun ev => ev.endpoint == "all")) (s e : Int) (p : ℚ) :
    calculate_availability_sli (recordAll MetricsStore.empty evs1) s e =
      calculate_availability_sli (recordAll MetricsStore.empty evs2) s e ∧
    calculate_error_rate_sli (recordAll MetricsStore.empty evs1) s e =
      calculate_error_rate_sli (recordAll MetricsStore.empty evs2) s e ∧
    calculate_latency_sli (recordAll MetricsStore.empty evs1) s e p =
      calculate_latency_sli (recordAll MetricsStore.empty evs2) s e p := by
  have h1 := recordAll_agree_filter evs1 MetricsStore.empty MetricsStore.empty
    (fun _ => rfl)
  have h2 := recordAll_agree_filter evs2 MetricsStore.empty MetricsStore.empty
    (fun _ => rfl)
  have hag : StoreAgree (recordAll MetricsStore.empty evs1)
      (recordAll MetricsStore.empty evs2) := by
    intro hh
    rw [h1 hh, hfilter, ← h2 hh]
  have hb := allBuckets_congr _ _ hag s e
  exact ⟨by simp only [calculate_availability_sli, hb],
    by simp only [calculate_error_rate_sli, hb],
    by simp only [calculate_latency_sli, hb]⟩

theorem slis_ignore_other_endpoints_witness :
    calculate_availability_sli (recordAll MetricsStore.empty
      [⟨"all", 200, 1 / 20, 0⟩, ⟨"api_users_get", 500, 1, 0⟩]) 0 5 =
      calculate_availability_sli (recordAll MetricsStore.empty
        [⟨"health", 500, 2, 3⟩, ⟨"all", 200, 1 / 20, 0⟩]) 0 5 ∧
    calculate_error_rate_sli (recordAll MetricsStore.empty
      [⟨"all", 200, 1 / 20, 0⟩, ⟨"api_users_get", 500, 1, 0⟩]) 0 5 =
      calculate_error_rate_sli (recordAll MetricsStore.empty
        [⟨"health", 500, 2, 3⟩, ⟨"all", 200, 1 / 20, 0⟩]) 0 5 ∧
    calculate_latency_sli (recordAll MetricsStore.empty
      [⟨"all", 200, 1 / 20, 0⟩, ⟨"api_users_get", 500, 1, 0⟩]) 0 5 95 =
      calculate_latency_sli (recordAll MetricsStore.empty
        [⟨"health", 500, 2, 3⟩, ⟨"all", 200, 1 / 20, 0⟩]) 0 5 95 :=
  slis_ignore_other_endpoints
    [⟨"all", 200, 1 / 20, 0⟩, ⟨"api_users_get", 500, 1, 0⟩]
    [⟨"health", 500, 2, 3⟩, ⟨"all", 200, 1 / 20, 0⟩] rfl 0 5 95

/-! ## Error budget claims -/

/-- C8 counterexample: a fresh error budget for the 99 percent error-rate
SLO has budget_total 1. One FAIL evaluation with SLI value 0 returns the
delta 99, but remaining() only drops from 1 to 0 (it is clamped at 0), not
by the claimed exact delta of 99. -/
theorem error_budget_clamp_counterexample :
    ((ErrorBudget.init sloErrorRate).consume_budget 0).2 = 99 ∧
    (ErrorBudget.init sloErrorRate).get_budget_remaining = 1 ∧
    ((ErrorBudget.init sloErrorRate).consume_budget 0).1.get_budget_remaining = 0 ∧
    (ErrorBudget.init sloErrorRate).get_budget_remaining -
      ((ErrorBudget.init sloErrorRate).consume_budget 0).1.get_budget_remaining ≠ 99 := by
  norm_num [ErrorBudget.init, ErrorBudget.consume_budget, ErrorBudget.get_budget_remaining,
    sloErrorRate]

/-- C8 (amended): a consume call with sli_value at least the target returns
0 and leaves the budget (hence remaining()) unchanged, so repeated PASS
evaluations never decrease remaining(); a call with sli_value below the
target returns the delta target - sli_value, increases budget_consumed by
exactly that delta, and moves remaining() to
max(0, remaining() - delta) - a strict decrease by exactly the delta
whenever the delta is at most the current remaining(), and a clamp at 0
otherwise. -/
theorem error_budget_consume_spec (eb : ErrorBudget) (sli : ℚ) :
    (eb.slo.target ≤ sli → eb.consume_budget sli = (eb, 0)) ∧
    (sli < eb.slo.target →
      (eb.consume_budget sli).2 = eb.slo.target - sli ∧
      (eb.consume_budget sli).1.budget_consumed =
        eb.budget_consumed + (eb.slo.target - sli) ∧
      (eb.consume_budget sli).1.get_budget_remaining =
        max 0 (eb.get_budget_remaining - (eb.slo.target - sli)) ∧
      (eb.slo.target - sli ≤ eb.get_budget_remaining →
        (eb.consume_budget sli).1.get_budget_remaining =
          eb.get_budget_remaining - (eb.slo.target - sli))) := by
  constructor
  · intro hpass
    unfold ErrorBudget.consume_budget
    rw [if_neg (by linarith)]
  · intro hfail
    have hδ : 0 < eb.slo.target - sli := by linarith
    unfold ErrorBudget.consume_budget
    rw [if_pos hfail]
    refine ⟨rfl, rfl, ?_, ?_⟩
    · unfold ErrorBudget.get_budget_remaining
      dsimp only
      rcases le_total (eb.budget_total - eb.budget_consumed) 0 with h0 | h0
      · rw [max_eq_left h0, max_eq_left (by linarith), max_eq_left (by linarith)]
      · rw [max_eq_right h0]
        congr 1
        ring
    · intro hroom
      unfold ErrorBudget.get_budget_remaining at hroom ⊢
      dsimp only at hroom ⊢
      have h0 : 0 ≤ eb.budget_total - eb.budget_consumed := by
        have := le_max_right (0 : ℚ) (eb.budget_total - eb.budget_consumed)
        by_cases hc : 0 ≤ eb.budget_total - eb.budget_consumed
        · exact hc
        · rw [max_eq_left (by linarith)] at hroom
          linarith
      rw [max_eq_right h0] at hroom ⊢
      rw [max_eq_right (by linarith)]
      ring

theorem error_budget_consume_spec_witness :
    (ErrorBudget.init sloAvailability).consume_budget 100 =
      (ErrorBudget.init sloAvailability, 0) ∧
    ((ErrorBudget.init sloAvailability).consume_budget 99).2 =
      (ErrorBudget.init sloAvailability).slo.target - 99 :=
  ⟨(error_budget_consume_spec (ErrorBudget.init sloAvailability) 100).1
      (by norm_num [ErrorBudget.init, sloAvailability]),
    ((error_budget_consume_spec (ErrorBudget.init sloAvailability) 99).2
      (by norm_num [ErrorBudget.init, sloAvailability])).1⟩

/-! ## Dashboard overall status claims -/

/-- One failed request recorded in the aggregate scope, making every
traffic-based SLO FAIL with a critically exhausted budget. -/
def storeDashboard : MetricsStore := record_request MetricsStore.empty "all" 500 1 0

/-- The dashboard payload that get_dashboard_data produces at hour 0 for
storeDashboard and fresh budgets. -/
def dashDegraded : DashboardData :=
  { slos :=
      [("availability",
        { slo_target := 999 / 10, sli_value := 0, status := "FAIL"
          budget_consumed := 999 / 10, budget_remaining := 0, is_critical := true }),
       ("latency_p95",
        { slo_target := 95, sli_value := 0, status := "FAIL"
          budget_consumed := 95, budget_remaining := 0, is_critical := true }),
       ("error_rate",
        { slo_target := 99, sli_value := 0, status := "FAIL"
          budget_consumed := 99, budget_remaining := 0, is_critical := true }),
       ("freshness",
        { slo_target := 995 / 10, sli_value := 995 / 10, status := "PASS"
          budget_consumed := 0, budget_remaining := 1 / 2, is_critical := false })]
    alerts :=
      [Alert.violation "availability", Alert.budgetCritical "availability",
       Alert.violation "latency_p95", Alert.budgetCritical "latency_p95",
       Alert.violation "error_rate", Alert.budgetCritical "error_rate"]
    overall_status := "DEGRADED" }

set_option maxRecDepth 8000 in
theorem dashboard_eval_concrete :
    get_dashboard_data 0 storeDashboard Budgets.init = some dashDegraded := by
  have hb : allBuckets storeDashboard (0 - 720) 0 =
      [{ total_requests := 1, successful_requests := 0
         response_times := [1], errors := 1 }] := rfl
  have hav : calculate_availability_sli storeDashboard (0 - 720) 0 = 0 := by
    simp only [calculate_availability_sli]
    rw [hb]
    simp
  have herr : calculate_error_rate_sli storeDashboard (0 - 720) 0 = 0 := by
    simp only [calculate_error_rate_sli]
    rw [hb]
    simp
  have hlat : calculate_latency_sli storeDashboard (0 - 720) 0 95 = some 0 := by
    rw [calculate_latency_sli_eq storeDashboard (0 - 720) 0 95 (by norm_num)]
    have hts : ((allBuckets storeDashboard (0 - 720) 0).map (·.response_times)).flatten =
        [1] := rfl
    simp only [latency_threshold_compliance, hts]
    rw [if_neg (by simp)]
    norm_num [List.filter]
  unfold get_dashboard_data evaluate_slos
  rw [hav, herr, hlat]
  simp only [Option.map_some']
  congr 1
  unfold dashDegraded evalOneSLO ErrorBudget.consume_budget ErrorBudget.is_budget_critical
    should_alert Budgets.init ErrorBudget.init calculate_freshness_sli
    sloAvailability sloLatencyP95 sloErrorRate sloFreshness
  norm_num [ErrorBudget.get_budget_remaining, max_def, List.flatMap]
  decide

/-- C4 counterexample: at hour 0 with storeDashboard and fresh budgets,
three SLO results carry is_critical = true, yet the overall status that
get_dashboard_data reports is "DEGRADED", not the "CRITICAL" the claim
requires; circuit breaker state is not an input of the computation at
all. -/
theorem dashboard_not_critical_counterexample :
    get_dashboard_data 0 storeDashboard Budgets.init = some dashDegraded ∧
    dashDegraded.slos.any (fun r => r.2.is_critical) = true ∧
    dashDegraded.overall_status = "DEGRADED" ∧
    dashDegraded.overall_status ≠ "CRITICAL" :=
  ⟨dashboard_eval_concrete, by decide, rfl, by decide⟩

/-- C4 (amended): the overall status field of get_dashboard_data is
"HEALTHY" exactly when the alerts list (one alert per FAILing SLO plus one
per critical error budget) is empty, and "DEGRADED" otherwise; "CRITICAL"
is never produced and the circuit breaker registry is not an input of the
computation. -/
theorem dashboard_status_from_alerts (now : Int) (store : MetricsStore) (B : Budgets)
    (d : DashboardData) (h : get_dashboard_data now store B = some d) :
    d.overall_status = (if d.alerts.isEmpty then "HEALTHY" else "DEGRADED") ∧
    d.overall_status ≠ "CRITICAL" := by
  unfold get_dashboard_data at h
  cases heval : evaluate_slos store (now - 720) now B with
  | none =>
    rw [heval] at h
    simp at h
  | some rb =>
    rw [heval] at h
    simp only [Option.map_some'] at h
    have hd := Option.some.inj h
    subst hd
    constructor
    · rfl
    · dsimp only
      by_cases ha : (should_alert rb.1).isEmpty
      · rw [if_pos ha]
        decide
      · rw [if_neg ha]
        decide

theorem dashboard_status_from_alerts_witness :
    dashDegraded.overall_status =
      (if dashDegraded.alerts.isEmpty then "HEALTHY" else "DEGRADED") ∧
    dashDegraded.overall_status ≠ "CRITICAL" :=
  dashboard_status_from_alerts 0 storeDashboard Budgets.init dashDegraded
    dashboard_eval_concrete
